import Mathlib

/-!
Verification of the Playlist + Tracks + Playback HTTP API (Node.js +
Express + Mongoose, src/server.js).

Shallow embedding: the three Mongo collections become three Lean lists of
records, each route handler becomes a pure function from the database
state and the request data to a response paired with the resulting
database state.  Mongo object identifiers are modelled as strings; the
library check mongoose.Types.ObjectId.isValid is modelled as the standard
24-character-hex test.  Timestamps (Date.now) are passed in explicitly as
a natural number `now`; server-generated identifiers are passed in as a
`freshId` argument.  An error response carries its HTTP status code and
message, exactly the strings of the source.
-/

namespace PlaylistApi

/-- HTTP error response: status code and the message string sent in the
JSON body, as in `res.status(s).json(\x7b message \x7d)`. -/
structure ErrResp where
  status : Nat
  message : String
deriving DecidableEq, Repr

/-- Track document (TrackSchema, src/server.js lines 52-60): title is
required, the rest optional; metadata is a free-form map modelled as an
association list. -/
structure Track where
  id : String
  title : String
  artist : Option String
  album : Option String
  duration : Option Int
  metadata : List (String × String)
  createdAt : Nat
deriving DecidableEq, Repr

/-- One element of a playlists `tracks` array (PlaylistSchema, src/server.js
lines 66-72): a track reference, an order number and an added timestamp. -/
structure TrackEntry where
  trackId : String
  order : Int
  addedAt : Nat
deriving DecidableEq, Repr

/-- Playlist document (PlaylistSchema, src/server.js lines 63-76). -/
structure Playlist where
  id : String
  name : String
  description : Option String
  tracks : List TrackEntry
  createdAt : Nat
  updatedAt : Nat
deriving DecidableEq, Repr

/-- Playback document (PlaybackSchema, src/server.js lines 79-86). -/
structure Playback where
  id : String
  trackId : String
  position : Int
  isPlaying : Bool
  startedAt : Nat
  updatedAt : Nat
deriving DecidableEq, Repr

/-- The whole database state: the three collections. -/
structure DB where
  tracks : List Track
  playlists : List Playlist
  playbacks : List Playback
deriving DecidableEq, Repr

/-- Model.findById: first document whose id matches. -/
def findTrack (db : DB) (id : String) : Option Track :=
  db.tracks.find? (fun t => t.id == id)

/-- Playlist.findById. -/
def findPlaylist (db : DB) (id : String) : Option Playlist :=
  db.playlists.find? (fun p => p.id == id)

/-- Saving a fetched-and-mutated playlist document writes it back over the
document with the same id. -/
def savePlaylist (ps : List Playlist) (p : Playlist) : List Playlist :=
  ps.map (fun q => if q.id == p.id then p else q)

/-- Truthiness of an optional string field of a JSON request body, as
tested by `if (req.body.title)`: present and non-empty. -/
def truthyStr (o : Option String) : Bool :=
  match o with
  | none => false
  | some s => s != ""

/-- Hexadecimal character test. -/
def isHexChar (c : Char) : Bool :=
  c.isDigit || (decide ('a' ≤ c) && decide (c ≤ 'f'))
    || (decide ('A' ≤ c) && decide (c ≤ 'F'))

/-- mongoose.Types.ObjectId.isValid on a string: a 24-character
hexadecimal string. -/
def isValidObjectId (s : String) : Bool :=
  s.length == 24 && s.toList.all isHexChar

-- ==============================
-- TRACK ROUTES
-- ==============================

/-- Request body for POST /api/v1/tracks. -/
structure CreateTrackBody where
  title : Option String
  artist : Option String
  album : Option String
  duration : Option Int
  metadata : List (String × String)
deriving DecidableEq, Repr

/-- Mongoose required-field validation for the Track model: a String field
with `required: true` rejects a missing value and the empty string. -/
def trackBodyValid (body : CreateTrackBody) : Bool :=
  truthyStr body.title

/-- GET /api/v1/tracks/:id (src/server.js lines 108-116): 404 when the id
resolves to no track, otherwise the track. -/
def getTrackById (db : DB) (id : String) : Except ErrResp Track :=
  match findTrack db id with
  | none => .error ⟨404, "Track not found"⟩
  | some t => .ok t

/-- POST /api/v1/tracks (src/server.js lines 119-127): construct a Track
from the body, save it; a mongoose validation failure is a 400. -/
def createTrack (db : DB) (body : CreateTrackBody) (freshId : String)
    (now : Nat) : Except ErrResp Track × DB :=
  if trackBodyValid body then
    let tr : Track :=
      { id := freshId
        title := body.title.getD ""
        artist := body.artist
        album := body.album
        duration := body.duration
        metadata := body.metadata
        createdAt := now }
    (.ok tr, { db with tracks := db.tracks ++ [tr] })
  else
    (.error ⟨400, "Track validation failed: title: Path title is required."⟩, db)

/-- DELETE /api/v1/tracks/:id (src/server.js lines 141-149):
findByIdAndDelete; 404 when absent.  No playlist is touched (the cleanup
of playlist references is commented out in the source, lines 547-551 of
the variant). -/
def deleteTrack (db : DB) (id : String) : Except ErrResp String × DB :=
  match findTrack db id with
  | none => (.error ⟨404, "Track not found"⟩, db)
  | some _ =>
      (.ok "Track deleted",
        { db with tracks := db.tracks.filter (fun t => !(t.id == id)) })

-- ==============================
-- TRACK ROUTES (within playlists)
-- ==============================

/-- Request body for POST /api/v1/playlists/:id/tracks.  The handler reads
`title` and `trackId` to choose between create-and-link and link-existing;
the remaining fields feed `new Track(req.body)` in the create case. -/
structure AddTrackBody where
  title : Option String
  trackId : Option String
  artist : Option String
  album : Option String
  duration : Option Int
  metadata : List (String × String)
deriving DecidableEq, Repr

/-- Tail of the add-track handler, after the target track id has been
resolved (src/server.js lines 261-273): duplicate check against the
playlists entries, then push an entry with order = length + 1, bump
updatedAt and save. -/
def finishAddTrack (db : DB) (playlist : Playlist) (trackIdToAdd : String)
    (trackDetails : Track) (now : Nat) : Except ErrResp Track × DB :=
  if playlist.tracks.any (fun t => t.trackId == trackIdToAdd) then
    (.error ⟨400, "Track already exists in this playlist."⟩, db)
  else
    let entry : TrackEntry :=
      { trackId := trackIdToAdd
        order := (playlist.tracks.length : Int) + 1
        addedAt := now }
    let playlist2 :=
      { playlist with
        tracks := playlist.tracks ++ [entry]
        updatedAt := now }
    (.ok trackDetails, { db with playlists := savePlaylist db.playlists playlist2 })

/-- POST /api/v1/playlists/:id/tracks (src/server.js lines 227-284).
Find the playlist (404 if absent); then either create a new track from
the body (rejecting a body that also carries a trackId), or link an
existing track by id (rejecting a malformed id, 404 when it resolves to
no track), or reject a body that carries neither; finally run the
duplicate check and append.  Note that in the create case the new Track
document is saved before the duplicate check, so it stays in the track
store even when the request then fails with the duplicate error. -/
def addTrackToPlaylist (db : DB) (playlistId : String) (body : AddTrackBody)
    (freshId : String) (now : Nat) : Except ErrResp Track × DB :=
  match findPlaylist db playlistId with
  | none => (.error ⟨404, "Playlist not found"⟩, db)
  | some playlist =>
    if truthyStr body.title then
      if truthyStr body.trackId then
        (.error ⟨400,
          "Cannot provide both track details (like title) and an existing trackId."⟩,
          db)
      else
        let newTrack : Track :=
          { id := freshId
            title := body.title.getD ""
            artist := body.artist
            album := body.album
            duration := body.duration
            metadata := body.metadata
            createdAt := now }
        let db2 := { db with tracks := db.tracks ++ [newTrack] }
        finishAddTrack db2 playlist freshId newTrack now
    else if truthyStr body.trackId then
      let tid := body.trackId.getD ""
      if !isValidObjectId tid then
        (.error ⟨400, "Invalid existing trackId format."⟩, db)
      else
        match findTrack db tid with
        | none =>
            (.error ⟨404,
              "The existing trackId provided does not correspond to a Track document."⟩,
              db)
        | some trackDetails => finishAddTrack db playlist tid trackDetails now
    else
      (.error ⟨400,
        "Missing trackId (to add existing) or track details (like title) to create a new track."⟩,
        db)

/-- Request body for PUT /api/v1/playlists/:id/tracks/:trackId.  The
handler reads only `order` and `addedAt`; a request body may carry any
other fields (for example a replacement trackId), which the handler never
reads -- they are kept in the model to state the frame property. -/
structure UpdateEntryBody where
  order : Option Int
  addedAt : Option Nat
  trackId : Option String
  extra : List (String × String)
deriving DecidableEq, Repr

/-- Replace the first element satisfying the predicate, as mutating the
document returned by Array.prototype.find does. -/
def updateFirst (p : TrackEntry → Bool) (f : TrackEntry → TrackEntry) :
    List TrackEntry → List TrackEntry
  | [] => []
  | x :: xs => if p x then f x :: xs else x :: updateFirst p f xs

/-- PUT /api/v1/playlists/:id/tracks/:trackId (src/server.js lines
287-313): find the playlist (404), find the entry by track reference
(404); copy only `order` and `addedAt` from the body onto the entry,
bump the playlists updatedAt and save. -/
def updateTrackInPlaylist (db : DB) (playlistId trackId : String)
    (body : UpdateEntryBody) (now : Nat) : Except ErrResp TrackEntry × DB :=
  match findPlaylist db playlistId with
  | none => (.error ⟨404, "Playlist not found"⟩, db)
  | some playlist =>
    match playlist.tracks.find? (fun t => t.trackId == trackId) with
    | none => (.error ⟨404, "Track not found in playlist"⟩, db)
    | some trackItem =>
      let apply := fun (e : TrackEntry) =>
        { e with
          order := body.order.getD e.order
          addedAt := body.addedAt.getD e.addedAt }
      let playlist2 :=
        { playlist with
          tracks := updateFirst (fun t => t.trackId == trackId) apply playlist.tracks
          updatedAt := now }
      (.ok (apply trackItem),
        { db with playlists := savePlaylist db.playlists playlist2 })

/-- DELETE /api/v1/playlists/:id/tracks/:trackId (src/server.js lines
316-336): find the playlist (404); filter out every entry whose track
reference matches; when nothing was removed answer 404 without saving,
otherwise bump updatedAt and save. -/
def removeTrackFromPlaylist (db : DB) (playlistId trackId : String)
    (now : Nat) : Except ErrResp String × DB :=
  match findPlaylist db playlistId with
  | none => (.error ⟨404, "Playlist not found"⟩, db)
  | some playlist =>
    let remaining := playlist.tracks.filter (fun t => !(t.trackId == trackId))
    if remaining.length == playlist.tracks.length then
      (.error ⟨404, "Track not found in playlist or trackId was invalid."⟩, db)
    else
      let playlist2 := { playlist with tracks := remaining, updatedAt := now }
      (.ok "Track removed from playlist",
        { db with playlists := savePlaylist db.playlists playlist2 })

-- ==============================
-- PLAYBACK ROUTES
-- ==============================

/-- The sort key of `.sort(\x7b updatedAt: -1 \x7d)`: descending by the
updatedAt timestamp. -/
def updatedDesc (a b : Playback) : Prop :=
  b.updatedAt ≤ a.updatedAt

instance : DecidableRel updatedDesc :=
  fun a b => inferInstanceAs (Decidable (b.updatedAt ≤ a.updatedAt))

/-- GET /api/v1/playback (src/server.js lines 343-350):
Playback.find().sort updatedAt descending .limit(1) -- a collection of at
most one record, the most recently updated one. -/
def mostRecentPlayback (db : DB) : List Playback :=
  (db.playbacks.insertionSort updatedDesc).take 1

-- ==============================
-- Helper lemmas
-- ==============================

/-- Writing back a mutated playlist document replaces exactly the stored
document it was fetched from: afterwards findById returns the written
document, provided the id was kept. -/
theorem find?_savePlaylist (ps : List Playlist) (p p2 : Playlist) (pid : String)
    (h : ps.find? (fun q => q.id == pid) = some p) (hid : p2.id = p.id) :
    (savePlaylist ps p2).find? (fun q => q.id == pid) = some p2 := by
  have hp : (p.id == pid) = true := by simpa using List.find?_some h
  have hp1 : p.id = pid := by simpa using hp
  induction ps with
  | nil => simp at h
  | cons q qs ih =>
    rw [List.find?_cons] at h
    by_cases hq : (q.id == pid) = true
    · rw [hq] at h
      injection h with h
      subst h
      have hq2 : (q.id == p2.id) = true := by simp [hid]
      have hp2 : (p2.id == pid) = true := by
        simp only [beq_iff_eq]
        rw [hid, hp1]
      simp only [savePlaylist, List.map_cons, if_pos hq2]
      exact List.find?_cons_of_pos _ hp2
    · have hq1 : (q.id == pid) = false := by simpa using hq
      rw [hq1] at h
      have h2 : q.id ≠ pid := by simpa using hq1
      have hq3 : (q.id == p2.id) = false := by
        simp only [beq_eq_false_iff_ne, ne_eq]
        intro hcon
        exact h2 (hcon.trans (hid.trans hp1))
      simp only [savePlaylist, List.map_cons, if_neg (by simp [hq3] : ¬(q.id == p2.id) = true)]
      rw [List.find?_cons, hq1]
      exact ih h

/-- savePlaylist touches only the playlist collection and only documents
with the written id. -/
theorem savePlaylist_other (ps : List Playlist) (p2 q : Playlist)
    (hq : q ∈ ps) (hne : (q.id == p2.id) = false) :
    q ∈ savePlaylist ps p2 := by
  simp only [savePlaylist, List.mem_map]
  exact ⟨q, hq, by simp [hne]⟩

theorem updateFirst_length (p : TrackEntry → Bool) (f : TrackEntry → TrackEntry) :
    ∀ l : List TrackEntry, (updateFirst p f l).length = l.length := by
  intro l
  induction l with
  | nil => rfl
  | cons x xs ih =>
    simp only [updateFirst]
    split <;> simp [ih]

/-- updateFirst leaves every element that fails the predicate in place. -/
theorem updateFirst_getElem?_of_neg (p : TrackEntry → Bool) (f : TrackEntry → TrackEntry)
    (l : List TrackEntry) (j : Nat) (e : TrackEntry)
    (hj : l[j]? = some e) (he : p e = false) :
    (updateFirst p f l)[j]? = some e := by
  induction l generalizing j with
  | nil => simp at hj
  | cons x xs ih =>
    cases j with
    | zero =>
      simp only [List.getElem?_cons_zero, Option.some_inj] at hj
      subst hj
      simp [updateFirst, he]
    | succ k =>
      simp only [List.getElem?_cons_succ] at hj
      simp only [updateFirst]
      split
      · simpa using hj
      · simpa using ih k hj

/-- If the update function preserves the track reference, updateFirst
preserves the sequence of track references pointwise. -/
theorem updateFirst_map_trackId (p : TrackEntry → Bool) (f : TrackEntry → TrackEntry)
    (hf : ∀ e, (f e).trackId = e.trackId) :
    ∀ l : List TrackEntry,
      (updateFirst p f l).map TrackEntry.trackId = l.map TrackEntry.trackId := by
  intro l
  induction l with
  | nil => rfl
  | cons x xs ih =>
    simp only [updateFirst]
    split <;> simp [hf, ih]

-- ==============================
-- Claim theorems
-- ==============================

/-- C8: deleting a track leaves every stored playlist (and every playback
record) entirely unchanged -- entries referencing the deleted track stay in
their playlists -- and deleting a nonexistent track id fails with NotFound
without modifying any store. -/
theorem deleteTrack_frame (db : DB) (t : String) :
    ((deleteTrack db t).2.playlists = db.playlists ∧
      (deleteTrack db t).2.playbacks = db.playbacks) ∧
    (findTrack db t = none →
      deleteTrack db t = (.error ⟨404, "Track not found"⟩, db)) := by
  unfold deleteTrack
  cases h : findTrack db t <;> simp [h]

theorem deleteTrack_frame_witness :
    (findTrack
        ⟨[⟨"aaaaaaaaaaaaaaaaaaaaaaaa", "Song A", none, none, none, [], 0⟩],
          [⟨"p1", "Mix", none, [⟨"aaaaaaaaaaaaaaaaaaaaaaaa", 1, 0⟩], 0, 0⟩], []⟩
        "bbbbbbbbbbbbbbbbbbbbbbbb" = none) ∧
    ((deleteTrack
        ⟨[⟨"aaaaaaaaaaaaaaaaaaaaaaaa", "Song A", none, none, none, [], 0⟩],
          [⟨"p1", "Mix", none, [⟨"aaaaaaaaaaaaaaaaaaaaaaaa", 1, 0⟩], 0, 0⟩], []⟩
        "bbbbbbbbbbbbbbbbbbbbbbbb").2.playlists =
      [⟨"p1", "Mix", none, [⟨"aaaaaaaaaaaaaaaaaaaaaaaa", 1, 0⟩], 0, 0⟩] ∧
      (deleteTrack
        ⟨[⟨"aaaaaaaaaaaaaaaaaaaaaaaa", "Song A", none, none, none, [], 0⟩],
          [⟨"p1", "Mix", none, [⟨"aaaaaaaaaaaaaaaaaaaaaaaa", 1, 0⟩], 0, 0⟩], []⟩
        "bbbbbbbbbbbbbbbbbbbbbbbb").1 = .error ⟨404, "Track not found"⟩) := by
  refine ⟨by decide, ?_, ?_⟩
  · exact (deleteTrack_frame
      ⟨[⟨"aaaaaaaaaaaaaaaaaaaaaaaa", "Song A", none, none, none, [], 0⟩],
        [⟨"p1", "Mix", none, [⟨"aaaaaaaaaaaaaaaaaaaaaaaa", 1, 0⟩], 0, 0⟩], []⟩
      "bbbbbbbbbbbbbbbbbbbbbbbb").1.1
  · have h := (deleteTrack_frame
      ⟨[⟨"aaaaaaaaaaaaaaaaaaaaaaaa", "Song A", none, none, none, [], 0⟩],
        [⟨"p1", "Mix", none, [⟨"aaaaaaaaaaaaaaaaaaaaaaaa", 1, 0⟩], 0, 0⟩], []⟩
      "bbbbbbbbbbbbbbbbbbbbbbbb").2 (by decide)
    rw [h]

/-- C10: an add-track request naming a playlist id that resolves to no
playlist fails with NotFound and leaves the whole database state -- in
particular the track store -- unchanged, even when the body carries valid
inline new-track details. -/
theorem addTrack_missing_playlist_no_track_created (db : DB) (pid : String)
    (body : AddTrackBody) (freshId : String) (now : Nat)
    (h : findPlaylist db pid = none) :
    addTrackToPlaylist db pid body freshId now =
      (.error ⟨404, "Playlist not found"⟩, db) ∧
    (addTrackToPlaylist db pid body freshId now).2.tracks = db.tracks := by
  unfold addTrackToPlaylist
  rw [h]
  exact ⟨rfl, rfl⟩

theorem addTrack_missing_playlist_no_track_created_witness :
    (findPlaylist ⟨[], [], []⟩ "p1" = none) ∧
    (addTrackToPlaylist ⟨[], [], []⟩ "p1"
        ⟨some "New Song", none, some "Artist", none, some 200, []⟩ "f1" 9 =
      (.error ⟨404, "Playlist not found"⟩, ⟨[], [], []⟩)) :=
  ⟨by decide,
    (addTrack_missing_playlist_no_track_created ⟨[], [], []⟩ "p1"
      ⟨some "New Song", none, some "Artist", none, some 200, []⟩ "f1" 9
      (by decide)).1⟩

/-- C9: creating a track from a valid body under a fresh identifier and
then fetching by that identifier returns a track carrying exactly the
field values that were stored at creation. -/
theorem createTrack_roundtrip (db : DB) (body : CreateTrackBody)
    (freshId : String) (now : Nat) (s : String)
    (htitle : body.title = some s) (hs : s ≠ "")
    (hfresh : ∀ tr ∈ db.tracks, tr.id ≠ freshId) :
    ∃ tr db2, createTrack db body freshId now = (.ok tr, db2) ∧
      getTrackById db2 freshId = .ok tr ∧
      tr.title = s ∧ tr.artist = body.artist ∧ tr.album = body.album ∧
      tr.duration = body.duration ∧ tr.metadata = body.metadata := by
  have hvalid : trackBodyValid body = true := by
    simp [trackBodyValid, truthyStr, htitle, hs]
  refine ⟨⟨freshId, body.title.getD "", body.artist, body.album, body.duration,
      body.metadata, now⟩,
    { db with tracks := db.tracks ++
        [⟨freshId, body.title.getD "", body.artist, body.album, body.duration,
          body.metadata, now⟩] },
    ?_, ?_, ?_, rfl, rfl, rfl, rfl⟩
  · unfold createTrack
    rw [if_pos hvalid]
  · unfold getTrackById findTrack
    simp only [List.find?_append]
    have h1 : db.tracks.find? (fun t => t.id == freshId) = none := by
      rw [List.find?_eq_none]
      intro x hx
      simp [hfresh x hx]
    rw [h1]
    simp
  · simp [htitle]

theorem createTrack_roundtrip_witness :
    ((⟨some "Bohemian Rhapsody", some "Queen", none, some 354,
        []⟩ : CreateTrackBody).title = some "Bohemian Rhapsody") ∧
    (∃ tr db2,
      createTrack ⟨[], [], []⟩
          ⟨some "Bohemian Rhapsody", some "Queen", none, some 354, []⟩
          "aaaaaaaaaaaaaaaaaaaaaaaa" 3 = (.ok tr, db2) ∧
      getTrackById db2 "aaaaaaaaaaaaaaaaaaaaaaaa" = .ok tr ∧
      tr.title = "Bohemian Rhapsody" ∧ tr.artist = some "Queen" ∧
      tr.album = none ∧ tr.duration = some 354 ∧ tr.metadata = []) :=
  ⟨rfl,
    createTrack_roundtrip ⟨[], [], []⟩
      ⟨some "Bohemian Rhapsody", some "Queen", none, some 354, []⟩
      "aaaaaaaaaaaaaaaaaaaaaaaa" 3 "Bohemian Rhapsody" rfl (by decide)
      (by intro tr htr; simp at htr)⟩

instance : IsTotal Playback updatedDesc :=
  ⟨fun a b => le_total b.updatedAt a.updatedAt⟩

instance : IsTrans Playback updatedDesc :=
  ⟨fun _ _ _ hab hbc => le_trans hbc hab⟩

/-- C7: the fetch-most-recent-playback operation returns at most one
record: none when the store is empty, and otherwise a stored record whose
last-modified timestamp is greatest among all stored records. -/
theorem mostRecentPlayback_spec (db : DB) :
    (mostRecentPlayback db).length ≤ 1 ∧
    (db.playbacks = [] → mostRecentPlayback db = []) ∧
    (db.playbacks ≠ [] →
      ∃ p, mostRecentPlayback db = [p] ∧ p ∈ db.playbacks ∧
        ∀ q ∈ db.playbacks, q.updatedAt ≤ p.updatedAt) := by
  refine ⟨?_, ?_, ?_⟩
  · simp only [mostRecentPlayback, List.length_take]
    exact min_le_left _ _
  · intro h
    simp [mostRecentPlayback, h, List.insertionSort]
  · intro h
    have hperm := List.perm_insertionSort updatedDesc db.playbacks
    have hsorted := List.sorted_insertionSort updatedDesc db.playbacks
    cases hsort : db.playbacks.insertionSort updatedDesc with
    | nil =>
      rw [hsort] at hperm
      exact absurd (hperm.symm.eq_nil) h
    | cons p tl =>
      refine ⟨p, ?_, ?_, ?_⟩
      · simp [mostRecentPlayback, hsort]
      · exact hperm.mem_iff.mp (by rw [hsort]; exact List.mem_cons_self p tl)
      · intro q hq
        have hq2 : q ∈ p :: tl := by
          rw [← hsort]
          exact hperm.mem_iff.mpr hq
        rcases List.mem_cons.mp hq2 with hq3 | hq3
        · exact hq3 ▸ le_refl _
        · rw [hsort] at hsorted
          exact List.rel_of_sorted_cons hsorted q hq3

theorem mostRecentPlayback_spec_witness :
    (([⟨"b1", "aaaaaaaaaaaaaaaaaaaaaaaa", 0, true, 0, 1⟩,
       ⟨"b2", "bbbbbbbbbbbbbbbbbbbbbbbb", 7, true, 0, 2⟩] : List Playback) ≠ []) ∧
    (∃ p, mostRecentPlayback
        ⟨[], [],
          [⟨"b1", "aaaaaaaaaaaaaaaaaaaaaaaa", 0, true, 0, 1⟩,
           ⟨"b2", "bbbbbbbbbbbbbbbbbbbbbbbb", 7, true, 0, 2⟩]⟩ = [p] ∧
      p ∈ ([⟨"b1", "aaaaaaaaaaaaaaaaaaaaaaaa", 0, true, 0, 1⟩,
            ⟨"b2", "bbbbbbbbbbbbbbbbbbbbbbbb", 7, true, 0, 2⟩] : List Playback) ∧
      ∀ q ∈ ([⟨"b1", "aaaaaaaaaaaaaaaaaaaaaaaa", 0, true, 0, 1⟩,
              ⟨"b2", "bbbbbbbbbbbbbbbbbbbbbbbb", 7, true, 0, 2⟩] : List Playback),
        q.updatedAt ≤ p.updatedAt) ∧
    mostRecentPlayback
        ⟨[], [],
          [⟨"b1", "aaaaaaaaaaaaaaaaaaaaaaaa", 0, true, 0, 1⟩,
           ⟨"b2", "bbbbbbbbbbbbbbbbbbbbbbbb", 7, true, 0, 2⟩]⟩ =
      [⟨"b2", "bbbbbbbbbbbbbbbbbbbbbbbb", 7, true, 0, 2⟩] :=
  ⟨by decide,
    (mostRecentPlayback_spec
      ⟨[], [],
        [⟨"b1", "aaaaaaaaaaaaaaaaaaaaaaaa", 0, true, 0, 1⟩,
         ⟨"b2", "bbbbbbbbbbbbbbbbbbbbbbbb", 7, true, 0, 2⟩]⟩).2.2 (by decide),
    by decide⟩

/-- C4: on an existing playlist, an add-track request fails with a 400
ValidationError when it supplies both a title and a track reference, when
it supplies neither, and when it supplies only a malformed track
reference; it fails with a 404 NotFound when the reference is well-formed
but resolves to no track.  In each case the database -- in particular the
playlists entry list -- is unchanged. -/
theorem addTrack_invalid_input_failures (db : DB) (pid : String) (p : Playlist)
    (freshId : String) (now : Nat)
    (hp : findPlaylist db pid = some p) :
    (∀ body : AddTrackBody,
      truthyStr body.title = true → truthyStr body.trackId = true →
      addTrackToPlaylist db pid body freshId now =
        (.error ⟨400,
          "Cannot provide both track details (like title) and an existing trackId."⟩,
          db)) ∧
    (∀ body : AddTrackBody,
      truthyStr body.title = false → truthyStr body.trackId = false →
      addTrackToPlaylist db pid body freshId now =
        (.error ⟨400,
          "Missing trackId (to add existing) or track details (like title) to create a new track."⟩,
          db)) ∧
    (∀ (body : AddTrackBody) (s : String),
      truthyStr body.title = false → body.trackId = some s → s ≠ "" →
      isValidObjectId s = false →
      addTrackToPlaylist db pid body freshId now =
        (.error ⟨400, "Invalid existing trackId format."⟩, db)) ∧
    (∀ (body : AddTrackBody) (s : String),
      truthyStr body.title = false → body.trackId = some s → s ≠ "" →
      isValidObjectId s = true → findTrack db s = none →
      addTrackToPlaylist db pid body freshId now =
        (.error ⟨404,
          "The existing trackId provided does not correspond to a Track document."⟩,
          db)) := by
  refine ⟨?_, ?_, ?_, ?_⟩
  · intro body h1 h2
    simp [addTrackToPlaylist, hp, h1, h2]
  · intro body h1 h2
    simp [addTrackToPlaylist, hp, h1, h2]
  · intro body s h1 h2 h3 h4
    have h5 : truthyStr body.trackId = true := by
      simp [truthyStr, h2, h3]
    simp [addTrackToPlaylist, hp, h1, h5, h2, h4]
    simp [truthyStr, h3]
  · intro body s h1 h2 h3 h4 h5
    have h6 : truthyStr body.trackId = true := by
      simp [truthyStr, h2, h3]
    simp [addTrackToPlaylist, hp, h1, h6, h2, h4, h5]
    simp [truthyStr, h3]

theorem addTrack_invalid_input_failures_witness :
    (findPlaylist ⟨[], [⟨"p1", "Mix", none, [], 0, 0⟩], []⟩ "p1" =
      some ⟨"p1", "Mix", none, [], 0, 0⟩) ∧
    (addTrackToPlaylist ⟨[], [⟨"p1", "Mix", none, [], 0, 0⟩], []⟩ "p1"
        ⟨some "T", some "aaaaaaaaaaaaaaaaaaaaaaaa", none, none, none, []⟩ "f" 1 =
      (.error ⟨400,
        "Cannot provide both track details (like title) and an existing trackId."⟩,
        ⟨[], [⟨"p1", "Mix", none, [], 0, 0⟩], []⟩)) ∧
    (addTrackToPlaylist ⟨[], [⟨"p1", "Mix", none, [], 0, 0⟩], []⟩ "p1"
        ⟨none, none, none, none, none, []⟩ "f" 1 =
      (.error ⟨400,
        "Missing trackId (to add existing) or track details (like title) to create a new track."⟩,
        ⟨[], [⟨"p1", "Mix", none, [], 0, 0⟩], []⟩)) ∧
    (addTrackToPlaylist ⟨[], [⟨"p1", "Mix", none, [], 0, 0⟩], []⟩ "p1"
        ⟨none, some "zz", none, none, none, []⟩ "f" 1 =
      (.error ⟨400, "Invalid existing trackId format."⟩,
        ⟨[], [⟨"p1", "Mix", none, [], 0, 0⟩], []⟩)) ∧
    (addTrackToPlaylist ⟨[], [⟨"p1", "Mix", none, [], 0, 0⟩], []⟩ "p1"
        ⟨none, some "aaaaaaaaaaaaaaaaaaaaaaaa", none, none, none, []⟩ "f" 1 =
      (.error ⟨404,
        "The existing trackId provided does not correspond to a Track document."⟩,
        ⟨[], [⟨"p1", "Mix", none, [], 0, 0⟩], []⟩)) := by
  have h := addTrack_invalid_input_failures
    ⟨[], [⟨"p1", "Mix", none, [], 0, 0⟩], []⟩ "p1" ⟨"p1", "Mix", none, [], 0, 0⟩
    "f" 1 (by decide)
  exact ⟨by decide,
    h.1 ⟨some "T", some "aaaaaaaaaaaaaaaaaaaaaaaa", none, none, none, []⟩
      (by decide) (by decide),
    h.2.1 ⟨none, none, none, none, none, []⟩ (by decide) (by decide),
    h.2.2.1 ⟨none, some "zz", none, none, none, []⟩ "zz"
      (by decide) rfl (by decide) (by decide),
    h.2.2.2 ⟨none, some "aaaaaaaaaaaaaaaaaaaaaaaa", none, none, none, []⟩
      "aaaaaaaaaaaaaaaaaaaaaaaa" (by decide) rfl (by decide) (by decide)
      (by decide)⟩

/-- C1: when the add-track request resolves (by inline details or by an
existing reference) to a track id already referenced by an entry of the
playlist, the operation answers the Conflict-class 400 already-exists
error and the stored playlists are unchanged, so the entry count stays as
it was. -/
theorem addTrack_duplicate_conflict (db : DB) (pid : String) (p : Playlist)
    (body : AddTrackBody) (freshId : String) (now : Nat) (t : String)
    (hp : findPlaylist db pid = some p)
    (hres : (truthyStr body.title = true ∧ truthyStr body.trackId = false ∧
              t = freshId) ∨
            (truthyStr body.title = false ∧ body.trackId = some t ∧ t ≠ "" ∧
              isValidObjectId t = true ∧ ∃ tr, findTrack db t = some tr))
    (hdup : p.tracks.any (fun e => e.trackId == t) = true) :
    (addTrackToPlaylist db pid body freshId now).1 =
      .error ⟨400, "Track already exists in this playlist."⟩ ∧
    (addTrackToPlaylist db pid body freshId now).2.playlists = db.playlists := by
  rcases hres with ⟨h1, h2, h3⟩ | ⟨h1, h2, h3, h4, tr, h5⟩
  · subst h3
    constructor <;>
      simp [addTrackToPlaylist, hp, h1, h2, finishAddTrack, hdup]
  · have h6 : truthyStr body.trackId = true := by
      simp [truthyStr, h2, h3]
    constructor <;>
      · simp [addTrackToPlaylist, hp, h1, h6, h2, h4, h5, finishAddTrack, hdup]
        simp [truthyStr, h3]

theorem addTrack_duplicate_conflict_witness :
    (findPlaylist
        ⟨[⟨"aaaaaaaaaaaaaaaaaaaaaaaa", "Song A", none, none, none, [], 0⟩],
          [⟨"p1", "Mix", none, [⟨"aaaaaaaaaaaaaaaaaaaaaaaa", 1, 5⟩], 0, 5⟩], []⟩
        "p1" = some ⟨"p1", "Mix", none, [⟨"aaaaaaaaaaaaaaaaaaaaaaaa", 1, 5⟩], 0, 5⟩) ∧
    ((⟨"p1", "Mix", none, [⟨"aaaaaaaaaaaaaaaaaaaaaaaa", 1, 5⟩], 0, 5⟩ :
        Playlist).tracks.any
      (fun e => e.trackId == "aaaaaaaaaaaaaaaaaaaaaaaa") = true) ∧
    ((addTrackToPlaylist
        ⟨[⟨"aaaaaaaaaaaaaaaaaaaaaaaa", "Song A", none, none, none, [], 0⟩],
          [⟨"p1", "Mix", none, [⟨"aaaaaaaaaaaaaaaaaaaaaaaa", 1, 5⟩], 0, 5⟩], []⟩
        "p1" ⟨none, some "aaaaaaaaaaaaaaaaaaaaaaaa", none, none, none, []⟩
        "g" 6).1 =
      .error ⟨400, "Track already exists in this playlist."⟩ ∧
    (addTrackToPlaylist
        ⟨[⟨"aaaaaaaaaaaaaaaaaaaaaaaa", "Song A", none, none, none, [], 0⟩],
          [⟨"p1", "Mix", none, [⟨"aaaaaaaaaaaaaaaaaaaaaaaa", 1, 5⟩], 0, 5⟩], []⟩
        "p1" ⟨none, some "aaaaaaaaaaaaaaaaaaaaaaaa", none, none, none, []⟩
        "g" 6).2.playlists =
      [⟨"p1", "Mix", none, [⟨"aaaaaaaaaaaaaaaaaaaaaaaa", 1, 5⟩], 0, 5⟩]) ∧
    ((⟨"p1", "Mix", none, [⟨"aaaaaaaaaaaaaaaaaaaaaaaa", 1, 5⟩], 0, 5⟩ :
        Playlist).tracks.length = 1) := by
  refine ⟨by decide, by decide, ?_, by decide⟩
  have h := addTrack_duplicate_conflict
    ⟨[⟨"aaaaaaaaaaaaaaaaaaaaaaaa", "Song A", none, none, none, [], 0⟩],
      [⟨"p1", "Mix", none, [⟨"aaaaaaaaaaaaaaaaaaaaaaaa", 1, 5⟩], 0, 5⟩], []⟩
    "p1" ⟨"p1", "Mix", none, [⟨"aaaaaaaaaaaaaaaaaaaaaaaa", 1, 5⟩], 0, 5⟩
    ⟨none, some "aaaaaaaaaaaaaaaaaaaaaaaa", none, none, none, []⟩ "g" 6
    "aaaaaaaaaaaaaaaaaaaaaaaa" (by decide)
    (Or.inr ⟨by decide, rfl, by decide, by decide,
      ⟨⟨"aaaaaaaaaaaaaaaaaaaaaaaa", "Song A", none, none, none, [], 0⟩,
        by decide⟩⟩)
    (by decide)
  exact ⟨h.1, by rw [h.2]⟩

/-- When the duplicate check passes, finishAddTrack answers 201 with the
resolved track and writes back the playlist with exactly one entry
appended at the end (order = old length + 1, addedAt = now) and
updatedAt bumped. -/
theorem finishAddTrack_not_dup (db : DB) (p : Playlist) (tid : String)
    (tr : Track) (now : Nat)
    (hdup : p.tracks.any (fun e => e.trackId == tid) = false) :
    finishAddTrack db p tid tr now =
      (.ok tr,
        ⟨db.tracks,
          savePlaylist db.playlists
            ⟨p.id, p.name, p.description,
              p.tracks ++ [⟨tid, (p.tracks.length : Int) + 1, now⟩],
              p.createdAt, now⟩,
          db.playbacks⟩) := by
  simp [finishAddTrack, hdup]

/-- C2: a successful add-track operation on an existing playlist appends
exactly one new entry at the end of its entry list, with order = previous
entry count + 1 and added-timestamp = now, bumps the playlists updatedAt
to now, and persists the playlist; all pre-existing entries are kept
unchanged in place. -/
theorem addTrack_success_appends_entry (db : DB) (pid : String) (p : Playlist)
    (body : AddTrackBody) (freshId : String) (now : Nat) (tr : Track)
    (hp : findPlaylist db pid = some p)
    (hok : (addTrackToPlaylist db pid body freshId now).1 = .ok tr) :
    ∃ e : TrackEntry,
      findPlaylist (addTrackToPlaylist db pid body freshId now).2 pid =
        some { p with tracks := p.tracks ++ [e], updatedAt := now } ∧
      e.order = (p.tracks.length : Int) + 1 ∧
      e.addedAt = now := by
  by_cases h1 : truthyStr body.title = true
  · by_cases h2 : truthyStr body.trackId = true
    · simp [addTrackToPlaylist, hp, h1, h2] at hok
    · have h2f : truthyStr body.trackId = false := by simpa using h2
      by_cases hdup : p.tracks.any (fun e => e.trackId == freshId) = true
      · simp [addTrackToPlaylist, hp, h1, h2f, finishAddTrack, hdup] at hok
      · have hdupf : p.tracks.any (fun e => e.trackId == freshId) = false := by
          simpa using hdup
        refine ⟨⟨freshId, (p.tracks.length : Int) + 1, now⟩, ?_, rfl, rfl⟩
        simp only [addTrackToPlaylist, hp, h1, h2f, Bool.false_eq_true,
          if_false, if_true, finishAddTrack_not_dup _ _ _ _ _ hdupf]
        exact find?_savePlaylist db.playlists p _ pid hp rfl
  · have h1f : truthyStr body.title = false := by simpa using h1
    by_cases h2 : truthyStr body.trackId = true
    · by_cases h3 : isValidObjectId (body.trackId.getD "") = true
      · cases hft : findTrack db (body.trackId.getD "") with
        | none => simp [addTrackToPlaylist, hp, h1f, h2, h3, hft] at hok
        | some trackDetails =>
          by_cases hdup : p.tracks.any
              (fun e => e.trackId == body.trackId.getD "") = true
          · simp [addTrackToPlaylist, hp, h1f, h2, h3, hft,
              finishAddTrack, hdup] at hok
          · have hdupf : p.tracks.any
                (fun e => e.trackId == body.trackId.getD "") = false := by
              simpa using hdup
            refine ⟨⟨body.trackId.getD "", (p.tracks.length : Int) + 1, now⟩,
              ?_, rfl, rfl⟩
            simp only [addTrackToPlaylist, hp, h1f, h2, h3, hft,
              Bool.false_eq_true, if_false, if_true, Bool.not_true,
              finishAddTrack_not_dup _ _ _ _ _ hdupf]
            exact find?_savePlaylist db.playlists p _ pid hp rfl
      · simp [addTrackToPlaylist, hp, h1f, h2, h3] at hok
    · have h2f : truthyStr body.trackId = false := by simpa using h2
      simp [addTrackToPlaylist, hp, h1f, h2f] at hok

theorem addTrack_success_appends_entry_witness :
    (findPlaylist
        ⟨[⟨"aaaaaaaaaaaaaaaaaaaaaaaa", "Song A", none, none, none, [], 0⟩],
          [⟨"p1", "Mix", none, [⟨"bbbbbbbbbbbbbbbbbbbbbbbb", 1, 2⟩], 0, 2⟩], []⟩
        "p1" =
      some ⟨"p1", "Mix", none, [⟨"bbbbbbbbbbbbbbbbbbbbbbbb", 1, 2⟩], 0, 2⟩) ∧
    ((addTrackToPlaylist
        ⟨[⟨"aaaaaaaaaaaaaaaaaaaaaaaa", "Song A", none, none, none, [], 0⟩],
          [⟨"p1", "Mix", none, [⟨"bbbbbbbbbbbbbbbbbbbbbbbb", 1, 2⟩], 0, 2⟩], []⟩
        "p1" ⟨none, some "aaaaaaaaaaaaaaaaaaaaaaaa", none, none, none, []⟩
        "g" 6).1 =
      .ok ⟨"aaaaaaaaaaaaaaaaaaaaaaaa", "Song A", none, none, none, [], 0⟩) ∧
    (∃ e : TrackEntry,
      findPlaylist
        (addTrackToPlaylist
          ⟨[⟨"aaaaaaaaaaaaaaaaaaaaaaaa", "Song A", none, none, none, [], 0⟩],
            [⟨"p1", "Mix", none, [⟨"bbbbbbbbbbbbbbbbbbbbbbbb", 1, 2⟩], 0, 2⟩],
            []⟩
          "p1" ⟨none, some "aaaaaaaaaaaaaaaaaaaaaaaa", none, none, none, []⟩
          "g" 6).2 "p1" =
        some ⟨"p1", "Mix", none,
          [⟨"bbbbbbbbbbbbbbbbbbbbbbbb", 1, 2⟩] ++ [e], 0, 6⟩ ∧
      e.order = 2 ∧ e.addedAt = 6) := by
  refine ⟨by decide, rfl, ?_⟩
  have h := addTrack_success_appends_entry
    ⟨[⟨"aaaaaaaaaaaaaaaaaaaaaaaa", "Song A", none, none, none, [], 0⟩],
      [⟨"p1", "Mix", none, [⟨"bbbbbbbbbbbbbbbbbbbbbbbb", 1, 2⟩], 0, 2⟩], []⟩
    "p1" ⟨"p1", "Mix", none, [⟨"bbbbbbbbbbbbbbbbbbbbbbbb", 1, 2⟩], 0, 2⟩
    ⟨none, some "aaaaaaaaaaaaaaaaaaaaaaaa", none, none, none, []⟩ "g" 6
    ⟨"aaaaaaaaaaaaaaaaaaaaaaaa", "Song A", none, none, none, [], 0⟩
    (by decide) rfl
  exact h

/-- C5: the update-entry operation on a playlist entry found by track
reference mutates at most the order and addedAt fields of entries
carrying that reference: the entry count is kept, the sequence of track
references is kept pointwise (so the located entrys reference is intact),
and every entry whose reference differs is kept entirely unchanged in
place -- whatever fields the request body carries. -/
theorem updateEntry_frame (db : DB) (pid tid : String) (p : Playlist)
    (body : UpdateEntryBody) (now : Nat) (e : TrackEntry)
    (hp : findPlaylist db pid = some p)
    (he : p.tracks.find? (fun x => x.trackId == tid) = some e) :
    ∃ p2, findPlaylist (updateTrackInPlaylist db pid tid body now).2 pid =
        some p2 ∧
      p2.tracks.length = p.tracks.length ∧
      p2.tracks.map TrackEntry.trackId = p.tracks.map TrackEntry.trackId ∧
      (∀ (j : Nat) (x : TrackEntry), p.tracks[j]? = some x →
        (x.trackId == tid) = false → p2.tracks[j]? = some x) := by
  refine ⟨⟨p.id, p.name, p.description,
      updateFirst (fun x => x.trackId == tid)
        (fun x => ⟨x.trackId, body.order.getD x.order, body.addedAt.getD x.addedAt⟩)
        p.tracks,
      p.createdAt, now⟩, ?_, ?_, ?_, ?_⟩
  · simp only [updateTrackInPlaylist, hp, he]
    exact find?_savePlaylist db.playlists p _ pid hp rfl
  · exact updateFirst_length (fun x => x.trackId == tid)
      (fun x => ⟨x.trackId, body.order.getD x.order, body.addedAt.getD x.addedAt⟩)
      p.tracks
  · exact updateFirst_map_trackId (fun x => x.trackId == tid)
      (fun x => ⟨x.trackId, body.order.getD x.order, body.addedAt.getD x.addedAt⟩)
      (fun _ => rfl) p.tracks
  · intro j x hj hx
    exact updateFirst_getElem?_of_neg (fun y => y.trackId == tid)
      (fun y => ⟨y.trackId, body.order.getD y.order, body.addedAt.getD y.addedAt⟩)
      p.tracks j x hj hx

theorem updateEntry_frame_witness :
    (findPlaylist
        ⟨[], [⟨"p1", "Mix", none,
          [⟨"aaaaaaaaaaaaaaaaaaaaaaaa", 1, 0⟩,
           ⟨"bbbbbbbbbbbbbbbbbbbbbbbb", 2, 0⟩], 0, 0⟩], []⟩ "p1" =
      some ⟨"p1", "Mix", none,
        [⟨"aaaaaaaaaaaaaaaaaaaaaaaa", 1, 0⟩,
         ⟨"bbbbbbbbbbbbbbbbbbbbbbbb", 2, 0⟩], 0, 0⟩) ∧
    (∃ p2, findPlaylist
        (updateTrackInPlaylist
          ⟨[], [⟨"p1", "Mix", none,
            [⟨"aaaaaaaaaaaaaaaaaaaaaaaa", 1, 0⟩,
             ⟨"bbbbbbbbbbbbbbbbbbbbbbbb", 2, 0⟩], 0, 0⟩], []⟩ "p1"
          "aaaaaaaaaaaaaaaaaaaaaaaa"
          ⟨some 9, some 4, some "cccccccccccccccccccccccc", [("name", "evil")]⟩
          7).2 "p1" = some p2 ∧
      p2.tracks.length =
        ([⟨"aaaaaaaaaaaaaaaaaaaaaaaa", 1, 0⟩,
          ⟨"bbbbbbbbbbbbbbbbbbbbbbbb", 2, 0⟩] : List TrackEntry).length ∧
      p2.tracks.map TrackEntry.trackId =
        ([⟨"aaaaaaaaaaaaaaaaaaaaaaaa", 1, 0⟩,
          ⟨"bbbbbbbbbbbbbbbbbbbbbbbb", 2, 0⟩] : List TrackEntry).map
          TrackEntry.trackId ∧
      (∀ (j : Nat) (x : TrackEntry),
        ([⟨"aaaaaaaaaaaaaaaaaaaaaaaa", 1, 0⟩,
          ⟨"bbbbbbbbbbbbbbbbbbbbbbbb", 2, 0⟩] : List TrackEntry)[j]? = some x →
        (x.trackId == "aaaaaaaaaaaaaaaaaaaaaaaa") = false →
        p2.tracks[j]? = some x)) :=
  ⟨by decide,
    updateEntry_frame
      ⟨[], [⟨"p1", "Mix", none,
        [⟨"aaaaaaaaaaaaaaaaaaaaaaaa", 1, 0⟩,
         ⟨"bbbbbbbbbbbbbbbbbbbbbbbb", 2, 0⟩], 0, 0⟩], []⟩ "p1"
      "aaaaaaaaaaaaaaaaaaaaaaaa"
      ⟨"p1", "Mix", none,
        [⟨"aaaaaaaaaaaaaaaaaaaaaaaa", 1, 0⟩,
         ⟨"bbbbbbbbbbbbbbbbbbbbbbbb", 2, 0⟩], 0, 0⟩
      ⟨some 9, some 4, some "ccccccccccccccccccccccccc", [("name", "evil")]⟩ 7
      ⟨"aaaaaaaaaaaaaaaaaaaaaaaa", 1, 0⟩ (by decide) (by decide)⟩

/-- C6: removing a track reference answers NotFound without touching any
state when the playlist is absent or when no entry carries the reference;
otherwise it succeeds and the stored playlist afterwards holds exactly
the original entries whose reference differs -- precisely the matching
entries are removed. -/
theorem removeTrack_spec (db : DB) (pid tid : String) (now : Nat) :
    (findPlaylist db pid = none →
      removeTrackFromPlaylist db pid tid now =
        (.error ⟨404, "Playlist not found"⟩, db)) ∧
    (∀ p, findPlaylist db pid = some p →
      (∀ e ∈ p.tracks, (e.trackId == tid) = false) →
      removeTrackFromPlaylist db pid tid now =
        (.error ⟨404, "Track not found in playlist or trackId was invalid."⟩,
          db)) ∧
    (∀ p, findPlaylist db pid = some p →
      (∃ e ∈ p.tracks, (e.trackId == tid) = true) →
      (removeTrackFromPlaylist db pid tid now).1 =
        .ok "Track removed from playlist" ∧
      ∃ p2, findPlaylist (removeTrackFromPlaylist db pid tid now).2 pid =
          some p2 ∧
        p2.tracks = p.tracks.filter (fun e => !(e.trackId == tid))) := by
  refine ⟨?_, ?_, ?_⟩
  · intro h
    simp [removeTrackFromPlaylist, h]
  · intro p hp hnone
    have hfix : p.tracks.filter (fun e => !(e.trackId == tid)) = p.tracks := by
      rw [List.filter_eq_self]
      intro e he2
      simp [hnone e he2]
    simp [removeTrackFromPlaylist, hp, hfix]
  · intro p hp ⟨e, he, hmatch⟩
    have hlt : (p.tracks.filter (fun x => !(x.trackId == tid))).length <
        p.tracks.length := by
      apply List.length_filter_lt_length_iff_exists.mpr
      exact ⟨e, he, by simp [hmatch]⟩
    have hne : ((p.tracks.filter (fun x => !(x.trackId == tid))).length ==
        p.tracks.length) = false := by
      simp only [beq_eq_false_iff_ne, ne_eq]
      exact Nat.ne_of_lt hlt
    constructor
    · simp [removeTrackFromPlaylist, hp, hne]
    · refine ⟨⟨p.id, p.name, p.description,
        p.tracks.filter (fun x => !(x.trackId == tid)), p.createdAt, now⟩,
        ?_, rfl⟩
      simp only [removeTrackFromPlaylist, hp, hne, Bool.false_eq_true, if_false]
      exact find?_savePlaylist db.playlists p _ pid hp rfl

theorem removeTrack_spec_witness :
    (findPlaylist
        ⟨[], [⟨"p1", "Mix", none,
          [⟨"aaaaaaaaaaaaaaaaaaaaaaaa", 1, 0⟩,
           ⟨"bbbbbbbbbbbbbbbbbbbbbbbb", 2, 0⟩], 0, 0⟩], []⟩ "p1" =
      some ⟨"p1", "Mix", none,
        [⟨"aaaaaaaaaaaaaaaaaaaaaaaa", 1, 0⟩,
         ⟨"bbbbbbbbbbbbbbbbbbbbbbbb", 2, 0⟩], 0, 0⟩) ∧
    (removeTrackFromPlaylist
        ⟨[], [⟨"p1", "Mix", none,
          [⟨"aaaaaaaaaaaaaaaaaaaaaaaa", 1, 0⟩,
           ⟨"bbbbbbbbbbbbbbbbbbbbbbbb", 2, 0⟩], 0, 0⟩], []⟩ "p1"
        "ccccccccccccccccccccc" 9 =
      (.error ⟨404, "Track not found in playlist or trackId was invalid."⟩,
        ⟨[], [⟨"p1", "Mix", none,
          [⟨"aaaaaaaaaaaaaaaaaaaaaaaa", 1, 0⟩,
           ⟨"bbbbbbbbbbbbbbbbbbbbbbbb", 2, 0⟩], 0, 0⟩], []⟩)) ∧
    ((removeTrackFromPlaylist
        ⟨[], [⟨"p1", "Mix", none,
          [⟨"aaaaaaaaaaaaaaaaaaaaaaaa", 1, 0⟩,
           ⟨"bbbbbbbbbbbbbbbbbbbbbbbb", 2, 0⟩], 0, 0⟩], []⟩ "p1"
        "aaaaaaaaaaaaaaaaaaaaaaaa" 9).1 = .ok "Track removed from playlist") := by
  have h := removeTrack_spec
    ⟨[], [⟨"p1", "Mix", none,
      [⟨"aaaaaaaaaaaaaaaaaaaaaaaa", 1, 0⟩,
       ⟨"bbbbbbbbbbbbbbbbbbbbbbbb", 2, 0⟩], 0, 0⟩], []⟩ "p1"
    "ccccccccccccccccccccc" 9
  have h2 := removeTrack_spec
    ⟨[], [⟨"p1", "Mix", none,
      [⟨"aaaaaaaaaaaaaaaaaaaaaaaa", 1, 0⟩,
       ⟨"bbbbbbbbbbbbbbbbbbbbbbbb", 2, 0⟩], 0, 0⟩], []⟩ "p1"
    "aaaaaaaaaaaaaaaaaaaaaaaa" 9
  refine ⟨by decide, ?_, ?_⟩
  · exact h.2.1 ⟨"p1", "Mix", none,
      [⟨"aaaaaaaaaaaaaaaaaaaaaaaa", 1, 0⟩,
       ⟨"bbbbbbbbbbbbbbbbbbbbbbbb", 2, 0⟩], 0, 0⟩ (by decide) (by decide)
  · exact (h2.2.2 ⟨"p1", "Mix", none,
      [⟨"aaaaaaaaaaaaaaaaaaaaaaaa", 1, 0⟩,
       ⟨"bbbbbbbbbbbbbbbbbbbbbbbb", 2, 0⟩], 0, 0⟩ (by decide)
      ⟨⟨"aaaaaaaaaaaaaaaaaaaaaaaa", 1, 0⟩, by decide, by decide⟩).1

/-- Whatever the add-track request contains, the playlist collection
afterwards is either untouched or has the fetched playlist overwritten
with one duplicate-checked entry appended. -/
theorem addTrack_playlists_cases (db : DB) (pid : String) (body : AddTrackBody)
    (freshId : String) (now : Nat) (p : Playlist)
    (hp : findPlaylist db pid = some p) :
    (addTrackToPlaylist db pid body freshId now).2.playlists = db.playlists ∨
    ∃ t, p.tracks.any (fun e => e.trackId == t) = false ∧
      (addTrackToPlaylist db pid body freshId now).2.playlists =
        savePlaylist db.playlists
          ⟨p.id, p.name, p.description,
            p.tracks ++ [⟨t, (p.tracks.length : Int) + 1, now⟩],
            p.createdAt, now⟩ := by
  by_cases h1 : truthyStr body.title = true
  · by_cases h2 : truthyStr body.trackId = true
    · left
      simp [addTrackToPlaylist, hp, h1, h2]
    · have h2f : truthyStr body.trackId = false := by simpa using h2
      by_cases hdup : p.tracks.any (fun e => e.trackId == freshId) = true
      · left
        simp [addTrackToPlaylist, hp, h1, h2f, finishAddTrack, hdup]
      · have hdupf : p.tracks.any (fun e => e.trackId == freshId) = false := by
          simpa using hdup
        right
        refine ⟨freshId, hdupf, ?_⟩
        simp [addTrackToPlaylist, hp, h1, h2f,
          finishAddTrack_not_dup _ _ _ _ _ hdupf]
  · have h1f : truthyStr body.title = false := by simpa using h1
    by_cases h2 : truthyStr body.trackId = true
    · by_cases h3 : isValidObjectId (body.trackId.getD "") = true
      · cases hft : findTrack db (body.trackId.getD "") with
        | none =>
          left
          simp [addTrackToPlaylist, hp, h1f, h2, h3, hft]
        | some trackDetails =>
          by_cases hdup : p.tracks.any
              (fun e => e.trackId == body.trackId.getD "") = true
          · left
            simp [addTrackToPlaylist, hp, h1f, h2, h3, hft,
              finishAddTrack, hdup]
          · have hdupf : p.tracks.any
                (fun e => e.trackId == body.trackId.getD "") = false := by
              simpa using hdup
            right
            refine ⟨body.trackId.getD "", hdupf, ?_⟩
            simp [addTrackToPlaylist, hp, h1f, h2, h3, hft,
              finishAddTrack_not_dup _ _ _ _ _ hdupf]
      · have h3f : isValidObjectId (body.trackId.getD "") = false := by
          simpa using h3
        left
        simp [addTrackToPlaylist, hp, h1f, h2, h3f]
    · have h2f : truthyStr body.trackId = false := by simpa using h2
      left
      simp [addTrackToPlaylist, hp, h1f, h2f]

/-- After an update-entry request the playlist collection is either
untouched or has the fetched playlist overwritten with its entry list
passed through updateFirst (which keeps every track reference). -/
theorem updateEntry_playlists_cases (db : DB) (pid tid : String)
    (body : UpdateEntryBody) (now : Nat) (p : Playlist)
    (hp : findPlaylist db pid = some p) :
    (updateTrackInPlaylist db pid tid body now).2.playlists = db.playlists ∨
    (updateTrackInPlaylist db pid tid body now).2.playlists =
      savePlaylist db.playlists
        ⟨p.id, p.name, p.description,
          updateFirst (fun x => x.trackId == tid)
            (fun x => ⟨x.trackId, body.order.getD x.order,
              body.addedAt.getD x.addedAt⟩) p.tracks,
          p.createdAt, now⟩ := by
  cases he : p.tracks.find? (fun x => x.trackId == tid) with
  | none =>
    left
    simp [updateTrackInPlaylist, hp, he]
  | some e =>
    right
    simp [updateTrackInPlaylist, hp, he]

/-- After a remove-entry request the playlist collection is either
untouched or has the fetched playlist overwritten with the matching
entries filtered out. -/
theorem removeTrack_playlists_cases (db : DB) (pid tid : String) (now : Nat)
    (p : Playlist) (hp : findPlaylist db pid = some p) :
    (removeTrackFromPlaylist db pid tid now).2.playlists = db.playlists ∨
    (removeTrackFromPlaylist db pid tid now).2.playlists =
      savePlaylist db.playlists
        ⟨p.id, p.name, p.description,
          p.tracks.filter (fun e => !(e.trackId == tid)),
          p.createdAt, now⟩ := by
  by_cases hlen : ((p.tracks.filter (fun e => !(e.trackId == tid))).length ==
      p.tracks.length) = true
  · left
    simp [removeTrackFromPlaylist, hp, hlen]
  · have hlenf : ((p.tracks.filter (fun e => !(e.trackId == tid))).length ==
        p.tracks.length) = false := by simpa using hlen
    right
    simp [removeTrackFromPlaylist, hp, hlenf]

/-- C3 counterexample: starting from a playlist whose two entries have
distinct order values 1 and 2, the update-entry operation (one of the
mutations the claim quantifies over) succeeds in setting the first
entrys order to 2, leaving a stored playlist in which two entries share
the order value 2.  The pairwise-distinct-orders half of the claimed
invariant is therefore not preserved. -/
theorem updateEntry_breaks_order_uniqueness :
    (((⟨"p1", "Mix", none,
        [⟨"aaaaaaaaaaaaaaaaaaaaaaaa", 1, 0⟩,
         ⟨"bbbbbbbbbbbbbbbbbbbbbbbb", 2, 0⟩], 0, 0⟩ : Playlist)).tracks.map
      TrackEntry.order).Nodup ∧
    (updateTrackInPlaylist
        ⟨[], [⟨"p1", "Mix", none,
          [⟨"aaaaaaaaaaaaaaaaaaaaaaaa", 1, 0⟩,
           ⟨"bbbbbbbbbbbbbbbbbbbbbbbb", 2, 0⟩], 0, 0⟩], []⟩ "p1"
        "aaaaaaaaaaaaaaaaaaaaaaaa" ⟨some 2, none, none, []⟩ 7).1 =
      .ok ⟨"aaaaaaaaaaaaaaaaaaaaaaaa", 2, 0⟩ ∧
    findPlaylist
        (updateTrackInPlaylist
          ⟨[], [⟨"p1", "Mix", none,
            [⟨"aaaaaaaaaaaaaaaaaaaaaaaa", 1, 0⟩,
             ⟨"bbbbbbbbbbbbbbbbbbbbbbbb", 2, 0⟩], 0, 0⟩], []⟩ "p1"
          "aaaaaaaaaaaaaaaaaaaaaaaa" ⟨some 2, none, none, []⟩ 7).2 "p1" =
      some ⟨"p1", "Mix", none,
        [⟨"aaaaaaaaaaaaaaaaaaaaaaaa", 2, 0⟩,
         ⟨"bbbbbbbbbbbbbbbbbbbbbbbb", 2, 0⟩], 0, 7⟩ ∧
    ¬ (((⟨"p1", "Mix", none,
        [⟨"aaaaaaaaaaaaaaaaaaaaaaaa", 2, 0⟩,
         ⟨"bbbbbbbbbbbbbbbbbbbbbbbb", 2, 0⟩], 0, 7⟩ : Playlist)).tracks.map
      TrackEntry.order).Nodup :=
  ⟨by decide, rfl, by decide, by decide⟩

/-- C3 amended: of the claimed invariant, the distinct-track-references
half is preserved by the three entry-level mutations -- add-track (via
its duplicate check), update-entry (which never rewrites a reference)
and remove-entry (which only deletes) -- in the sense that whenever the
playlist fetched under an id had pairwise-distinct track references, the
playlist stored under that id after the operation still does.  The
distinct-order half of the claim does not hold. -/
theorem entryOps_preserve_trackRef_nodup :
    (∀ (db : DB) (pid : String) (body : AddTrackBody) (freshId : String)
        (now : Nat) (p p2 : Playlist),
      findPlaylist db pid = some p →
      (p.tracks.map TrackEntry.trackId).Nodup →
      findPlaylist (addTrackToPlaylist db pid body freshId now).2 pid =
        some p2 →
      (p2.tracks.map TrackEntry.trackId).Nodup) ∧
    (∀ (db : DB) (pid tid : String) (body : UpdateEntryBody) (now : Nat)
        (p p2 : Playlist),
      findPlaylist db pid = some p →
      (p.tracks.map TrackEntry.trackId).Nodup →
      findPlaylist (updateTrackInPlaylist db pid tid body now).2 pid =
        some p2 →
      (p2.tracks.map TrackEntry.trackId).Nodup) ∧
    (∀ (db : DB) (pid tid : String) (now : Nat) (p p2 : Playlist),
      findPlaylist db pid = some p →
      (p.tracks.map TrackEntry.trackId).Nodup →
      findPlaylist (removeTrackFromPlaylist db pid tid now).2 pid = some p2 →
      (p2.tracks.map TrackEntry.trackId).Nodup) := by
  refine ⟨?_, ?_, ?_⟩
  · intro db pid body freshId now p p2 hp hnodup h2
    rcases addTrack_playlists_cases db pid body freshId now p hp with
      hcase | ⟨t, hnew, hcase⟩
    · unfold findPlaylist at h2 hp
      rw [hcase, hp] at h2
      injection h2 with h2
      rw [← h2]
      exact hnodup
    · unfold findPlaylist at h2
      have hfind := find?_savePlaylist db.playlists p
        (⟨p.id, p.name, p.description,
          p.tracks ++ [(⟨t, (p.tracks.length : Int) + 1, now⟩ : TrackEntry)],
          p.createdAt, now⟩ : Playlist) pid hp rfl
      rw [hcase, hfind] at h2
      injection h2 with h2
      rw [← h2]
      have ht : t ∉ p.tracks.map TrackEntry.trackId := by
        intro hmem
        rcases List.mem_map.mp hmem with ⟨e, he, hid⟩
        have := List.any_eq_false.mp hnew e he
        simp [hid] at this
      simp [List.nodup_append, hnodup, ht]
  · intro db pid tid body now p p2 hp hnodup h2
    rcases updateEntry_playlists_cases db pid tid body now p hp with
      hcase | hcase
    · unfold findPlaylist at h2 hp
      rw [hcase, hp] at h2
      injection h2 with h2
      rw [← h2]
      exact hnodup
    · unfold findPlaylist at h2
      rw [hcase, find?_savePlaylist db.playlists p
        ⟨p.id, p.name, p.description,
          updateFirst (fun x => x.trackId == tid)
            (fun x => ⟨x.trackId, body.order.getD x.order,
              body.addedAt.getD x.addedAt⟩) p.tracks,
          p.createdAt, now⟩ pid hp rfl] at h2
      injection h2 with h2
      rw [← h2]
      have hmap := updateFirst_map_trackId (fun x => x.trackId == tid)
        (fun x => ⟨x.trackId, body.order.getD x.order,
          body.addedAt.getD x.addedAt⟩) (fun _ => rfl) p.tracks
      simpa [hmap] using hnodup
  · intro db pid tid now p p2 hp hnodup h2
    rcases removeTrack_playlists_cases db pid tid now p hp with hcase | hcase
    · unfold findPlaylist at h2 hp
      rw [hcase, hp] at h2
      injection h2 with h2
      rw [← h2]
      exact hnodup
    · unfold findPlaylist at h2
      rw [hcase, find?_savePlaylist db.playlists p
        ⟨p.id, p.name, p.description,
          p.tracks.filter (fun e => !(e.trackId == tid)),
          p.createdAt, now⟩ pid hp rfl] at h2
      injection h2 with h2
      rw [← h2]
      exact hnodup.sublist
        (List.Sublist.map TrackEntry.trackId (List.filter_sublist p.tracks))

theorem entryOps_preserve_trackRef_nodup_witness :
    (findPlaylist
        ⟨[⟨"aaaaaaaaaaaaaaaaaaaaaaaa", "Song A", none, none, none, [], 0⟩],
          [⟨"p1", "Mix", none, [⟨"bbbbbbbbbbbbbbbbbbbbbbbb", 1, 2⟩], 0, 2⟩], []⟩
        "p1" =
      some ⟨"p1", "Mix", none, [⟨"bbbbbbbbbbbbbbbbbbbbbbbb", 1, 2⟩], 0, 2⟩) ∧
    ((([⟨"bbbbbbbbbbbbbbbbbbbbbbbb", 1, 2⟩] : List TrackEntry).map
      TrackEntry.trackId).Nodup) ∧
    (findPlaylist
        (addTrackToPlaylist
          ⟨[⟨"aaaaaaaaaaaaaaaaaaaaaaaa", "Song A", none, none, none, [], 0⟩],
            [⟨"p1", "Mix", none, [⟨"bbbbbbbbbbbbbbbbbbbbbbbb", 1, 2⟩], 0, 2⟩],
            []⟩
          "p1" ⟨none, some "aaaaaaaaaaaaaaaaaaaaaaaa", none, none, none, []⟩
          "g" 6).2 "p1" =
      some ⟨"p1", "Mix", none,
        [⟨"bbbbbbbbbbbbbbbbbbbbbbbb", 1, 2⟩,
         ⟨"aaaaaaaaaaaaaaaaaaaaaaaa", 2, 6⟩], 0, 6⟩) ∧
    ((([⟨"bbbbbbbbbbbbbbbbbbbbbbbb", 1, 2⟩,
        ⟨"aaaaaaaaaaaaaaaaaaaaaaaa", 2, 6⟩] : List TrackEntry).map
      TrackEntry.trackId).Nodup) :=
  ⟨by decide, by decide, by decide,
    entryOps_preserve_trackRef_nodup.1
      ⟨[⟨"aaaaaaaaaaaaaaaaaaaaaaaa", "Song A", none, none, none, [], 0⟩],
        [⟨"p1", "Mix", none, [⟨"bbbbbbbbbbbbbbbbbbbbbbbb", 1, 2⟩], 0, 2⟩], []⟩
      "p1" ⟨none, some "aaaaaaaaaaaaaaaaaaaaaaaa", none, none, none, []⟩ "g" 6
      ⟨"p1", "Mix", none, [⟨"bbbbbbbbbbbbbbbbbbbbbbbb", 1, 2⟩], 0, 2⟩
      ⟨"p1", "Mix", none,
        [⟨"bbbbbbbbbbbbbbbbbbbbbbbb", 1, 2⟩,
         ⟨"aaaaaaaaaaaaaaaaaaaaaaaa", 2, 6⟩], 0, 6⟩
      (by decide) (by decide) (by decide)⟩

end PlaylistApi
